import Mathlib

/-!
Verification of the bs-select jQuery plugin (src/dist/jquery.bs-select.js)
against its natural-language specification.

The development shallowly embeds the state the plugin keeps for one
initialized select element: the native select (option values, selected
flags, the multiple attribute, the disabled flag), the rendered dropdown
(one item per option element, each carrying an active flag and a
data-index attribute), the event log produced by the trigger helper, the
search filter, the global DEFAULTS object, and the Bootstrap environment
probe.  Every definition is translated from the source file
src/dist/jquery.bs-select.js; the line numbers cited in the doc comments
refer to that file.
-/

namespace BsSelect

/-- Value of a native select element as returned by jQuery val():
a single (possibly null) string for a select-one element, a list of
strings for a select-multiple element. -/
inductive SelVal where
  | single : Option String → SelVal
  | multi : List String → SelVal
deriving DecidableEq

/-- A parameter attached to a triggered event (the plugin passes select
values and booleans as event parameters). -/
inductive EvParam where
  | val : SelVal → EvParam
  | flag : Bool → EvParam
deriving DecidableEq

/-- An event emitted on the select element: its name and its parameter
list. -/
structure Event where
  name : String
  params : List EvParam
deriving DecidableEq

/-- The event emitted by the recursive call trigger($select, 'any.bs.select')
in the source (lines 137-139): the catch-all event, always without
parameters. -/
def triggerAny : List Event := [⟨"any.bs.select", []⟩]

/-- The trigger helper (source lines 132-152).  For an event other than
any.bs.select it first triggers any.bs.select (recursively, which takes
the parameterless branch, here inlined as triggerAny) and then the event
itself with its parameters.  The result is the list of events emitted, in
emission order. -/
def trigger (event : String) (addParams : List EvParam) : List Event :=
  if event = "any.bs.select" then
    [⟨event, []⟩]
  else
    triggerAny ++ [⟨event, addParams⟩]

/-- The events of an emitted event list whose name is change.bs.select. -/
def changeEvents (evs : List Event) : List Event :=
  evs.filter fun e => e.name == "change.bs.select"

/-! ## The global DEFAULTS object (source lines 62-123) -/

/-- The shared $.bsSelect.DEFAULTS object.  Only the fields relevant to the
claims are modelled; an Option field value of none models a key that is
absent from the object (deleted, or never set). -/
structure Defaults where
  btnClass : String
  btnEmptyText : String
  search : Bool
  debug : Option Bool
  debugElement : Option String
deriving DecidableEq

/-- The $.bsSelect plugin object, holding the shared DEFAULTS. -/
structure BsSelectGlobal where
  DEFAULTS : Defaults
deriving DecidableEq

/-- $.bsSelect.getDefaults (source lines 66-71).  In the source,
defCopy aliases this.DEFAULTS (no copy is made), so the two delete
statements remove the debug and debugElement keys from the shared object
itself; the returned object is that same shared object. -/
def getDefaults (g : BsSelectGlobal) : Defaults × BsSelectGlobal :=
  let defCopy : Defaults := { g.DEFAULTS with debug := none, debugElement := none }
  (defCopy, { g with DEFAULTS := defCopy })

/-- User options passed to bsSelect(options); a field value of none models
a key that is absent from the options object. -/
structure UserOptions where
  btnClass : Option String
  debug : Option Bool
  debugElement : Option String
deriving DecidableEq

/-- jQuery extend of the defaults with a user options object, as used to
build the per-element settings on initialization (source lines 1464-1478):
a key present in the options object overrides the base, an absent key
falls back to the base. -/
def extendSettings (base : Defaults) (o : UserOptions) : Defaults :=
  { base with
    btnClass := match o.btnClass with
      | some c => c
      | none => base.btnClass
    debug := match o.debug with
      | some b => some b
      | none => base.debug
    debugElement := match o.debugElement with
      | some e => some e
      | none => base.debugElement }

/-! ## getBootstrapMajorVersion (source lines 360-369) -/

/-- The Bootstrap modal plugin Constructor with its VERSION static
property; a VERSION of none models an undefined property. -/
structure BsConstructor where
  VERSION : Option String
deriving DecidableEq

/-- The Bootstrap modal plugin object $.fn.modal; Constructor = none models
typeof $.fn.modal.Constructor being undefined. -/
structure ModalPlugin where
  Constructor : Option BsConstructor
deriving DecidableEq

/-- The part of the jQuery environment probed by the plugin;
modal = none models typeof $.fn.modal being undefined. -/
structure JQueryEnv where
  modal : Option ModalPlugin
deriving DecidableEq

/-- Outcome of a JavaScript computation: a normal result, or an uncaught
exception (a TypeError raised by a member access on undefined). -/
inductive JsOutcome (α : Type) where
  | ok : α → JsOutcome α
  | thrown : String → JsOutcome α
deriving DecidableEq

/-- A JavaScript member access: reading a property chain through a value
that is undefined throws a TypeError. -/
def jsMember {α : Type} (o : Option α) (what : String) : JsOutcome α :=
  match o with
  | some a => .ok a
  | none => .thrown what

/-- Result of parseInt(bootstrapVersion.split('.')[0]): undefined when the
guard returned early, NaN when the first segment has no leading digits,
or the numeric major version. -/
inductive BsMajor where
  | undef : BsMajor
  | nan : BsMajor
  | ver : Nat → BsMajor
deriving DecidableEq

/-- Whether a BsMajor value compares strictly equal (===) to the number 4;
both undefined and NaN compare false. -/
def bsMajorIsFour : BsMajor → Bool
  | .ver 4 => true
  | _ => false

/-- parseInt(version.split('.')[0], implicit radix 10): take the first
dot-separated segment and parse its leading decimal digits; NaN when no
digit leads the segment. -/
def parseIntOfVersion (s : String) : BsMajor :=
  let firstSeg := s.data.takeWhile fun c => c ≠ '.'
  let digits := firstSeg.takeWhile Char.isDigit
  if digits.isEmpty then .nan
  else .ver (digits.foldl (fun acc c => acc * 10 + (c.toNat - 48)) 0)

/-- The console error message logged by getBootstrapMajorVersion when the
modal plugin is missing (source line 362, transliterated to ASCII). -/
def modalMissingError : String := "Bootstrap Modal Plugin ist nicht verfuegbar"

/-- getBootstrapMajorVersion (source lines 360-369): when $.fn.modal or
$.fn.modal.Constructor is undefined, log an error to the console and
return undefined; otherwise read Constructor.VERSION (a member access that
would throw if VERSION were undefined) and parse its major number.  The
result carries the returned value and the list of console error messages
logged. -/
def getBootstrapMajorVersion (env : JQueryEnv) : JsOutcome (BsMajor × List String) :=
  match env.modal with
  | none => .ok (.undef, [modalMissingError])
  | some m =>
    match m.Constructor with
    | none => .ok (.undef, [modalMissingError])
    | some c =>
      match jsMember c.VERSION "VERSION" with
      | .thrown e => .thrown e
      | .ok v => .ok (parseIntOfVersion v, [])

/-- The only consumers of getBootstrapMajorVersion are the click handlers
installed by setupDropdown (source lines 384, 391, 401, 478): they compute
BS_V === 4 && multiple && (autoclose === "true" || autoclose === "outside")
to decide whether to stop event propagation.  This models that computation
end to end. -/
def setupDropdownBsGuard (env : JQueryEnv) (multiple : Bool) (autoclose : String) :
    JsOutcome Bool :=
  match getBootstrapMajorVersion env with
  | .thrown e => .thrown e
  | .ok (v, _) =>
    .ok (bsMajorIsFour v && multiple && (autoclose == "true" || autoclose == "outside"))

/-! ## Widget state: one initialized select with its dropdown

The dropdown built by init renders one dropdown item per option element,
in option order, with data-index i on the i-th item (source lines
910-1011); this invariant is proved separately for the render loop.  Here
the widget state keeps the per-option data as parallel lists indexed by
the option position. -/

/-- State of one initialized select element together with its rendered
dropdown.  optionValues lists the value of each option element in
document order; optionSelected is the selected property of each option;
itemActive is the active class of the dropdown item with the same
data-index; disabled / btnDisabled are the disabled properties of the
select and of the toggle button; isOpen is whether the dropdown menu is
shown; onBeforeChangeResult models the settings.onBeforeChange callback
(none = no callback configured, some b = a callback returning b). -/
structure Widget where
  multiple : Bool
  optionValues : List String
  optionSelected : List Bool
  itemActive : List Bool
  disabled : Bool
  btnDisabled : Bool
  isOpen : Bool
  onBeforeChangeResult : Option Bool
deriving DecidableEq

/-- The values of the flagged positions: flaggedValues vals flags keeps
vals[i] whenever flags[i] is true (positions beyond either list are
dropped). -/
def flaggedValues : List String → List Bool → List String
  | [], _ => []
  | _ :: _, [] => []
  | v :: vs, b :: bs => if b then v :: flaggedValues vs bs else flaggedValues vs bs

/-- The values of the currently selected options, in document order. -/
def selectedOptionValues (w : Widget) : List String :=
  flaggedValues w.optionValues w.optionSelected

/-- jQuery $select.val() on the native element: the list of selected
values for a select-multiple, the first selected value or null for a
select-one. -/
def selVal (w : Widget) : SelVal :=
  if w.multiple then .multi (selectedOptionValues w)
  else .single (selectedOptionValues w).head?

/-- The values of the options whose dropdown item carries the active
class, found through the data-index attribute of each active item
(source lines 239-248). -/
def activeValues (w : Widget) : List String :=
  flaggedValues w.optionValues w.itemActive

/-- getSelectedValuesFromDropdown (source lines 229-261): the array of
active-item values for a select-multiple, values[0] or null for a
select-one. -/
def getSelectedValuesFromDropdown (w : Widget) : SelVal :=
  if w.multiple then .multi (activeValues w)
  else .single (activeValues w).head?

/-- Comparison of two characters by code unit, as the default JavaScript
sort comparator orders strings. -/
def charListLe : List Char → List Char → Bool
  | [], _ => true
  | _ :: _, [] => false
  | a :: as, b :: bs =>
    if a.val < b.val then true
    else if b.val < a.val then false
    else charListLe as bs

/-- Code-unit order on strings (the default JavaScript sort order). -/
def strLe (a b : String) : Bool := charListLe a.data b.data

/-- Insert a string into a sorted list of strings. -/
def insertSorted (x : String) : List String → List String
  | [] => [x]
  | y :: ys => if strLe x y then x :: y :: ys else y :: insertSorted x ys

/-- Sort a list of strings in the default JavaScript sort order, as
[...arr].sort() does in arraysEqual. -/
def sortStrings : List String → List String
  | [] => []
  | x :: xs => insertSorted x (sortStrings xs)

/-- arraysEqual (source lines 650-665): equal length and elementwise
equal after sorting both arrays. -/
def arraysEqual (arr1 arr2 : List String) : Bool :=
  arr1.length == arr2.length && sortStrings arr1 == sortStrings arr2

/-- hasValueChanged (source lines 675-689): arrays are compared as
multisets via arraysEqual; otherwise strict inequality.  A single and a
multiple value never arise together on the same select, and compare as
changed. -/
def hasValueChanged : SelVal → SelVal → Bool
  | .single a, .single b => a != b
  | .multi a, .multi b => !arraysEqual a b
  | _, _ => true

/-- Membership test on a list of strings (JavaScript Array includes). -/
def containsStr : List String → String → Bool
  | [], _ => false
  | x :: xs, s => x == s || containsStr xs s

/-- Native select-one semantics of setting the value to s: the first
option whose value equals s becomes the only selected option; when no
option matches, no option is selected (selectedIndex -1). -/
def selectFirstMatch : List String → String → List Bool
  | [], _ => []
  | v :: vs, s =>
    if v == s then true :: vs.map (fun _ => false)
    else false :: selectFirstMatch vs s

/-- Native select-multiple semantics of setting the value to the list
sel: an option is selected exactly when its value occurs in sel. -/
def selectMembers : List String → List String → List Bool
  | [], _ => []
  | v :: vs, sel => containsStr sel v :: selectMembers vs sel

/-- jQuery $select.val(v): update the selected properties of the options
from the assigned value. -/
def nativeSetVal (w : Widget) (v : SelVal) : Widget :=
  match v with
  | .single none => { w with optionSelected := w.optionValues.map fun _ => false }
  | .single (some s) => { w with optionSelected := selectFirstMatch w.optionValues s }
  | .multi vs => { w with optionSelected := selectMembers w.optionValues vs }

/-- setSelectValues (source lines 269-283): read the selected values from
the dropdown and assign them to the native select element. -/
def setSelectValues (w : Widget) : Widget :=
  nativeSetVal w (getSelectedValuesFromDropdown w)

/-- onBeforeChange (source lines 1408-1431): when no callback is
configured the change is allowed and nothing is emitted; when a callback
is configured it is invoked and acceptChange.bs.select or
cancelChange.bs.select is triggered according to its result. -/
def onBeforeChange (w : Widget) : Bool × List Event :=
  match w.onBeforeChangeResult with
  | none => (true, [])
  | some ok =>
    if ok then (true, trigger "acceptChange.bs.select" [])
    else (false, trigger "cancelChange.bs.select" [])

/-- The item state after toggleSelectedItem touches item k (source lines
597-608): item k gets the active class iff setActive; on a select-one
every other item loses the active class, on a select-multiple the other
items keep their state. -/
def newItemActive (w : Widget) (k : Nat) (setActive : Bool) : List Bool :=
  List.zipWith
    (fun j a => if j = k then setActive else if w.multiple then a else false)
    (List.range w.itemActive.length) w.itemActive

/-- The widget after toggleSelectedItem updated the active classes. -/
def setItemActive (w : Widget) (k : Nat) (setActive : Bool) : Widget :=
  { w with itemActive := newItemActive w k setActive }

/-- toggleSelectedItem for a single clicked item (source lines 590-640):
when onBeforeChange allows the change, toggle the active classes, write
the active values back to the native select (setSelectValues), and
trigger change.bs.select with the before and after values exactly when
hasValueChanged holds.  Returns the new state and the emitted events. -/
def toggleSelectedItem (w : Widget) (k : Nat) (setActive : Bool) : Widget × List Event :=
  let pre := onBeforeChange w
  if pre.1 then
    let beforeValues := selVal w
    let w1 := setItemActive w k setActive
    let w2 := setSelectValues w1
    let afterValues := getSelectedValuesFromDropdown w2
    let evs :=
      if hasValueChanged beforeValues afterValues then
        trigger "change.bs.select" [.val beforeValues, .val afterValues]
      else []
    (w2, pre.2 ++ evs)
  else (w, pre.2)

/-- The dropdown-item click handler installed by setupDropdown (source
lines 471-481): read whether the clicked item is active and call
toggleSelectedItem with the negation. -/
def clickDropdownItem (w : Widget) (k : Nat) : Widget × List Event :=
  let active := w.itemActive.getD k false
  toggleSelectedItem w k (!active)

/-- toggleAllItemsState (source lines 293-353): set the selected property
of every option to state, set the active class of every dropdown item to
state, write the active values back to the native select, trigger
selectAll.bs.select or selectNone.bs.select unconditionally, and then
trigger change.bs.select with the before and after values exactly when
hasValueChanged holds. -/
def toggleAllItemsState (w : Widget) (state : Bool) : Widget × List Event :=
  let beforeValues := selVal w
  let w1 := { w with optionSelected := w.optionSelected.map fun _ => state }
  let w2 := { w1 with itemActive := w1.itemActive.map fun _ => state }
  let w3 := setSelectValues w2
  let evName := if state then "selectAll.bs.select" else "selectNone.bs.select"
  let evs1 := trigger evName []
  let afterValues := getSelectedValuesFromDropdown w3
  let evs2 :=
    if hasValueChanged beforeValues afterValues then
      trigger "change.bs.select" [.val beforeValues, .val afterValues]
    else []
  (w3, evs1 ++ evs2)

/-- The selectAll command case of $.fn.bsSelect (source lines 1523-1529):
onBeforeChange gates toggleAllItemsState with state true. -/
def selectAllCommand (w : Widget) : Widget × List Event :=
  let pre := onBeforeChange w
  if pre.1 then
    let r := toggleAllItemsState w true
    (r.1, pre.2 ++ r.2)
  else (w, pre.2)

/-- The selectNone command case of $.fn.bsSelect (source lines 1531-1537):
onBeforeChange gates toggleAllItemsState with state false. -/
def selectNoneCommand (w : Widget) : Widget × List Event :=
  let pre := onBeforeChange w
  if pre.1 then
    let r := toggleAllItemsState w false
    (r.1, pre.2 ++ r.2)
  else (w, pre.2)

/-- First index of an option with the given value, as
$select.find(option[value=v]).index() computes it for options that are
direct children of the select; none when no option matches (index -1). -/
def indexOfStr : List String → String → Option Nat
  | [], _ => none
  | x :: xs, s => if x == s then some 0 else (indexOfStr xs s).map (· + 1)

/-- Set the listed positions to true. -/
def activateIndices (active : List Bool) (idxs : List Nat) : List Bool :=
  idxs.foldl (fun acc i => acc.set i true) active

/-- The val function (source lines 1181-1224): clear the active class on
every dropdown item, re-activate the item whose data-index is the index
of each currently selected value, and write the active values back to the
native select element. -/
def valFn (w : Widget) : Widget :=
  let cleared := w.itemActive.map fun _ => false
  let vs :=
    match selVal w with
    | .multi l => l
    | .single (some s) => [s]
    | .single none => []
  let idxs := vs.filterMap fun v => indexOfStr w.optionValues v
  let w1 := { w with itemActive := activateIndices cleared idxs }
  setSelectValues w1

/-- The val command case of $.fn.bsSelect (source lines 1604-1618): when
onBeforeChange allows it, assign the parameter to the native select,
rebuild the dropdown state with the val function, and trigger
change.bs.select with the before and after values exactly when
hasValueChanged holds.  No step consults the disabled state. -/
def valCommand (w : Widget) (param : SelVal) : Widget × List Event :=
  let beforeValues := selVal w
  let pre := onBeforeChange w
  if pre.1 then
    let w1 := nativeSetVal w param
    let w2 := valFn w1
    let afterValues := getSelectedValuesFromDropdown w2
    let evs :=
      if hasValueChanged beforeValues afterValues then
        trigger "change.bs.select" [.val beforeValues, .val afterValues]
      else []
    (w2, pre.2 ++ evs)
  else (w, pre.2)

/-- setDisabled (source lines 1314-1339): when disabling, add the
disabled class to the toggle button and hide the dropdown; when enabling,
remove the class.  Then set the disabled property of the button and of
the native select, and trigger toggleDisabled.bs.select with the status. -/
def setDisabledOp (w : Widget) (status : Bool) : Widget × List Event :=
  let w1 :=
    if status then { w with btnDisabled := true, isOpen := false }
    else { w with btnDisabled := false }
  let w2 := { w1 with btnDisabled := status, disabled := status }
  (w2, trigger "toggleDisabled.bs.select" [.flag status])

/-! ## destroy (source lines 1233-1282) -/

/-- A sibling node in the parent of the dropdown wrapper: the original
select element, the wrapper carrying class js-bs-select-dropdown (the
flag records whether the select currently sits inside it), or any other
element. -/
inductive PNode where
  | sel : PNode
  | wrap : Bool → PNode
  | other : Nat → PNode
deriving DecidableEq

/-- $select.insertBefore($dropdown) (source line 1254): the select moves
out of the wrapper to the sibling position directly before it. -/
def insertSelBeforeWrap : List PNode → List PNode
  | [] => []
  | .wrap _ :: rest => .sel :: .wrap false :: insertSelBeforeWrap rest
  | n :: rest => n :: insertSelBeforeWrap rest

/-- $dropdown.remove() (source line 1270): the wrapper disappears from
the sibling list. -/
def removeWrap : List PNode → List PNode
  | [] => []
  | .wrap _ :: rest => removeWrap rest
  | n :: rest => n :: removeWrap rest

/-- The DOM effect of destroy on the sibling list of the wrapper: insert
the select before the wrapper, then remove the wrapper. -/
def destroyDom (siblings : List PNode) : List PNode :=
  removeWrap (insertSelBeforeWrap siblings)

/-- The value effect of destroy (source lines 1243-1257): capture
$select.val() before the move, then re-assign the captured value to the
select after the move. -/
def destroySelect (w : Widget) : Widget :=
  nativeSetVal w (selVal w)

/-! ## The init render loop (source lines 910-1011) -/

/-- An option element of the select, with its value and text. -/
structure OptionEl where
  value : String
  text : String
deriving DecidableEq

/-- A direct child of the select element: a plain option, or an optgroup
with its label and option children. -/
inductive SelChild where
  | opt : OptionEl → SelChild
  | group : String → List OptionEl → SelChild
deriving DecidableEq

/-- An element of $select.find(optgroup, option) in document order. -/
inductive VElem where
  | og : String → VElem
  | opt : OptionEl → VElem
deriving DecidableEq

/-- The sequence validElements iterated by the render loop (source line
913): document order interleaves each optgroup with its option children. -/
def validElements : List SelChild → List VElem
  | [] => []
  | .opt o :: rest => .opt o :: validElements rest
  | .group l os :: rest => .og l :: (os.map VElem.opt ++ validElements rest)

/-- The option elements matched by $select.find(option), in document
order; option:eq(i) is the i-th entry of this list. -/
def flattenOptions (cs : List SelChild) : List OptionEl :=
  (validElements cs).filterMap fun e =>
    match e with
    | .opt o => some o
    | .og _ => none

/-- A node rendered into the dropdown menu by the init loop: an optgroup
header with its data-og-index, or a dropdown item with its data-index,
data-og-index, source option and active class. -/
inductive Rendered where
  | header : Int → String → Rendered
  | item : Nat → Int → OptionEl → Bool → Rendered
deriving DecidableEq

/-- The isSelected computation of the render loop (source lines 949-961):
string comparison of the option value against the initial selected value
(membership for a select-multiple). -/
def isSelectedFor (sv : SelVal) (v : String) : Bool :=
  match sv with
  | .multi vs => containsStr vs v
  | .single (some s) => s == v
  | .single none => false

/-- The render loop of init (source lines 915-1011) over validElements,
carrying the running data-index i (incremented only for options) and the
running optgroup index (incremented only for optgroup headers, starting
from -1). -/
def renderLoop (sv : SelVal) : List VElem → Nat → Int → List Rendered
  | [], _, _ => []
  | .og label :: rest, i, og =>
    .header (og + 1) label :: renderLoop sv rest i (og + 1)
  | .opt o :: rest, i, og =>
    .item i og o (isSelectedFor sv o.value) :: renderLoop sv rest (i + 1) og

/-- The dropdown items and headers produced by init for a select with the
given children and initial value. -/
def renderDropdownItems (cs : List SelChild) (sv : SelVal) : List Rendered :=
  renderLoop sv (validElements cs) 0 (-1)

/-- The data-index attribute and source option of a rendered dropdown
item; none for an optgroup header. -/
def itemIndexValue : Rendered → Option (Nat × OptionEl)
  | .item i _ o _ => some (i, o)
  | .header _ _ => none

/-! ## init (source lines 722-1035) -/

/-- The state init operates on: the select children and value, the
multiple attribute, the already-built dropdown wrapper when the plugin is
initialized (none before the first initialization), and the value key of
the settings object (undefined by default). -/
structure InitState where
  children : List SelChild
  value : SelVal
  multiple : Bool
  wrapper : Option (List Rendered)
  settingsValue : Option SelVal
deriving DecidableEq

/-- init (source lines 722-1035).  When a dropdown wrapper already exists
for the select, it is returned unchanged and nothing else happens (source
lines 731-738).  Otherwise the dropdown markup is built from the options:
the initial selected value is settings.value when fireTrigger is set and
the key is defined, else the current select value, and the render loop
produces one dropdown item per option. -/
def initFn (s : InitState) (fireTrigger : Bool) : List Rendered × InitState :=
  match s.wrapper with
  | some d => (d, s)
  | none =>
    let selectedValue :=
      if fireTrigger then
        match s.settingsValue with
        | some v => v
        | none => s.value
      else s.value
    let items := renderDropdownItems s.children selectedValue
    (items, { s with wrapper := some items, value := selectedValue })

/-! ## The search filter (source lines 406-456) -/

/-- Whitespace as trimmed by String.prototype.trim (ASCII subset). -/
def isWs (c : Char) : Bool :=
  c == ' ' || c == '\t' || c == '\n' || c == '\r' || c == '\x0B' || c == '\x0C'

/-- JavaScript String.prototype.trim: drop leading and trailing
whitespace. -/
def jsTrim (s : String) : String :=
  ⟨((s.data.dropWhile isWs).reverse.dropWhile isWs).reverse⟩

/-- JavaScript String.prototype.toUpperCase, characterwise. -/
def jsToUpper (s : String) : String := ⟨s.data.map Char.toUpper⟩

/-- needle occurs as a contiguous prefix of hay. -/
def isPrefixOfB : List Char → List Char → Bool
  | [], _ => true
  | _ :: _, [] => false
  | a :: as, b :: bs => a == b && isPrefixOfB as bs

/-- needle occurs as a contiguous substring of hay, as
hay.indexOf(needle) > -1 tests it. -/
def containsSub (needle : List Char) : List Char → Bool
  | [] => isPrefixOfB needle []
  | c :: t => isPrefixOfB needle (c :: t) || containsSub needle t

/-- hay.indexOf(needle) > -1 on strings. -/
def strContains (hay needle : String) : Bool := containsSub needle.data hay.data

/-- The keyup/input search handler (source lines 415-456) applied to the
item texts: the search pattern is the trimmed field value; when it is
empty every item stays visible, otherwise an item is visible exactly when
its trimmed text, uppercased, contains the uppercased pattern. -/
def searchVisibleFlags (texts : List String) (searchValue : String) : List Bool :=
  let searchPattern := jsTrim searchValue
  if searchPattern = "" then texts.map fun _ => true
  else texts.map fun t =>
    strContains (jsToUpper (jsTrim t)) (jsToUpper searchPattern)

/-- The search-related state of an open dropdown: the text of each
dropdown item, the content of the search field, and the visibility of
each item. -/
structure SearchState where
  itemTexts : List String
  searchValue : String
  visible : List Bool
deriving DecidableEq

/-- Triggering the keyup handler on the current field content. -/
def searchKeyup (s : SearchState) : SearchState :=
  { s with visible := searchVisibleFlags s.itemTexts s.searchValue }

/-- The hidden.bs.dropdown handler (source lines 406-414): clear the
search field with val(null), re-show every item, and re-run the keyup
handler on the now-empty field. -/
def hiddenDropdownReset (s : SearchState) : SearchState :=
  searchKeyup { s with searchValue := "", visible := s.itemTexts.map fun _ => true }

/-! ## Concrete widgets used by witnesses and counterexamples -/

/-- The option elements extracted from a validElements sequence, in
order. -/
def optionsOfVElems (ves : List VElem) : List OptionEl :=
  ves.filterMap fun e =>
    match e with
    | .opt o => some o
    | .og _ => none

/-- C1 witness widget: a select-one with two options and nothing
selected. -/
def clickW : Widget :=
  ⟨false, ["x", "y"], [false, false], [false, false], false, false, false, none⟩

/-- The event name computed by toggleAllItemsState (source line 344):
selectAll.bs.select when selecting all, selectNone.bs.select when
deselecting all. -/
def toggleEventName (state : Bool) : String :=
  if state then "selectAll.bs.select" else "selectNone.bs.select"

/-- C2 counterexample widgets: a multiple select with every option
already selected and active, and a select-one with its second option
selected. -/
def allSelectedW : Widget :=
  ⟨true, ["a", "b"], [true, true], [true, true], false, false, false, none⟩

/-- A select-one used to show that selectAll cannot set every option
selected on a single select. -/
def singleSelW : Widget :=
  ⟨false, ["a", "b"], [false, true], [false, true], false, false, false, none⟩

/-- C2 witness widget: a multiple select with nothing selected. -/
def multiW : Widget :=
  ⟨true, ["a", "b"], [false, false], [false, false], false, false, false, none⟩

/-- C4 witness widget: a select-one with its first option selected. -/
def destroyW : Widget :=
  ⟨false, ["a", "b"], [true, false], [true, false], false, false, false, none⟩

/-- C5 counterexample widget: a select-one with option a selected, which
then gets disabled through setDisabled. -/
def disabledW : Widget :=
  ⟨false, ["a", "b"], [true, false], [true, false], false, false, false, none⟩

/-! ## Supporting lemmas -/

/-- The single/multiple packaging shared by selVal and
getSelectedValuesFromDropdown. -/
def mkVal (m : Bool) (vs : List String) : SelVal :=
  if m then .multi vs else .single vs.head?

theorem selVal_eq_mkVal (w : Widget) :
    selVal w = mkVal w.multiple (selectedOptionValues w) := rfl

theorem getSelected_eq_mkVal (w : Widget) :
    getSelectedValuesFromDropdown w = mkVal w.multiple (activeValues w) := rfl

theorem flaggedValues_allFalse :
    ∀ (l : List String) (f : List Bool), (∀ b ∈ f, b = false) →
      flaggedValues l f = [] := by
  intro l
  induction l with
  | nil => intro f _; cases f <;> rfl
  | cons v vs ih =>
    intro f hf
    cases f with
    | nil => rfl
    | cons b bs =>
      have hb : b = false := hf b (List.mem_cons_self b bs)
      have hbs : ∀ x ∈ bs, x = false := fun x hx => hf x (List.mem_cons_of_mem b hx)
      simp [flaggedValues, hb, ih bs hbs]

theorem flaggedValues_allTrue :
    ∀ (l : List String) (f : List Bool), (∀ b ∈ f, b = true) →
      l.length ≤ f.length → flaggedValues l f = l := by
  intro l
  induction l with
  | nil => intro f _ _; cases f <;> rfl
  | cons v vs ih =>
    intro f hf hlen
    cases f with
    | nil => simp at hlen
    | cons b bs =>
      have hb : b = true := hf b (List.mem_cons_self b bs)
      have hbs : ∀ x ∈ bs, x = true := fun x hx => hf x (List.mem_cons_of_mem b hx)
      have hl : vs.length ≤ bs.length := by simpa using hlen
      simp [flaggedValues, hb, ih bs hbs hl]

theorem mem_flaggedValues {x : String} :
    ∀ {l : List String} {f : List Bool}, x ∈ flaggedValues l f → x ∈ l := by
  intro l
  induction l with
  | nil => intro f h; cases f <;> simp [flaggedValues] at h
  | cons v vs ih =>
    intro f h
    cases f with
    | nil => simp [flaggedValues] at h
    | cons b bs =>
      cases b with
      | false =>
        simp only [flaggedValues, if_neg Bool.false_ne_true] at h
        exact List.mem_cons_of_mem v (ih h)
      | true =>
        simp only [flaggedValues, if_pos rfl] at h
        rcases List.mem_cons.mp h with h1 | h1
        · exact h1 ▸ List.mem_cons_self v vs
        · exact List.mem_cons_of_mem v (ih h1)

theorem containsStr_iff (l : List String) (s : String) :
    containsStr l s = true ↔ s ∈ l := by
  induction l with
  | nil => simp [containsStr]
  | cons x xs ih =>
    simp only [containsStr, Bool.or_eq_true, beq_iff_eq, ih, List.mem_cons]
    exact or_congr eq_comm Iff.rfl

theorem selectMembers_allMem :
    ∀ (l sel : List String), (∀ v ∈ l, containsStr sel v = true) →
      selectMembers l sel = l.map fun _ => true := by
  intro l
  induction l with
  | nil => intro sel _; rfl
  | cons v vs ih =>
    intro sel h
    have hv := h v (List.mem_cons_self v vs)
    have hvs : ∀ x ∈ vs, containsStr sel x = true :=
      fun x hx => h x (List.mem_cons_of_mem v hx)
    simp [selectMembers, hv, ih sel hvs]

theorem selectMembers_nilSel (l : List String) :
    selectMembers l [] = l.map fun _ => false := by
  induction l with
  | nil => rfl
  | cons v vs ih => simp [selectMembers, containsStr, ih]

theorem selectMembers_irrelevant (x : String) :
    ∀ (l d : List String), x ∉ l →
      selectMembers l (x :: d) = selectMembers l d := by
  intro l
  induction l with
  | nil => intro d _; rfl
  | cons v vs ih =>
    intro d hx
    have hvx : ¬(x = v) := fun he => hx (he ▸ List.mem_cons_self v vs)
    have hvs : x ∉ vs := fun hm => hx (List.mem_cons_of_mem v hm)
    have hxv : (x == v) = false := by
      simp only [beq_eq_false_iff_ne, ne_eq]
      exact hvx
    have hc : containsStr (x :: d) v = containsStr d v := by
      simp [containsStr, hxv]
    simp [selectMembers, hc, ih d hvs]

theorem flaggedValues_selectMembers :
    ∀ (l : List String) (f : List Bool), l.Nodup →
      flaggedValues l (selectMembers l (flaggedValues l f)) = flaggedValues l f := by
  intro l
  induction l with
  | nil => intro f _; cases f <;> rfl
  | cons v vs ih =>
    intro f hnd
    have hvnot : v ∉ vs := (List.nodup_cons.mp hnd).1
    have hndvs : vs.Nodup := (List.nodup_cons.mp hnd).2
    cases f with
    | nil =>
      have : flaggedValues (v :: vs) ([] : List Bool) = [] := rfl
      rw [this]
      have hvd : containsStr ([] : List String) v = false := rfl
      simp [selectMembers_nilSel, flaggedValues_allFalse]
    | cons b bs =>
      cases b with
      | true =>
        have hfl : flaggedValues (v :: vs) (true :: bs) = v :: flaggedValues vs bs := by
          simp [flaggedValues]
        rw [hfl]
        have hcv : containsStr (v :: flaggedValues vs bs) v = true := by
          simp [containsStr]
        have hshift : selectMembers vs (v :: flaggedValues vs bs)
            = selectMembers vs (flaggedValues vs bs) := selectMembers_irrelevant v vs _ hvnot
        simp [selectMembers, hcv, flaggedValues, hshift, ih bs hndvs]
      | false =>
        have hfl : flaggedValues (v :: vs) (false :: bs) = flaggedValues vs bs := by
          simp [flaggedValues]
        rw [hfl]
        have hvd : v ∉ flaggedValues vs bs := fun hm => hvnot (mem_flaggedValues hm)
        have hcv : containsStr (flaggedValues vs bs) v = false := by
          cases hc : containsStr (flaggedValues vs bs) v with
          | false => rfl
          | true => exact absurd ((containsStr_iff _ _).mp hc) hvd
        simp [selectMembers, hcv, flaggedValues, ih bs hndvs]

theorem flaggedValues_mapFalse (l : List String) {α : Type} (g : List α) :
    flaggedValues l (g.map fun _ => false) = [] :=
  flaggedValues_allFalse l _ (by simp)

theorem flaggedValues_replicateFalse (l : List String) (n : Nat) :
    flaggedValues l (List.replicate n false) = [] :=
  flaggedValues_allFalse l _ (fun _ hb => List.eq_of_mem_replicate hb)

theorem flaggedValues_replicateTrue (l : List String) (n : Nat) (h : l.length ≤ n) :
    flaggedValues l (List.replicate n true) = l :=
  flaggedValues_allTrue l _ (fun b hb => List.eq_of_mem_replicate hb)
    (by simpa using h)

theorem flaggedValues_selectFirstMatch :
    ∀ (l : List String) (s : String), s ∈ l →
      flaggedValues l (selectFirstMatch l s) = [s] := by
  intro l
  induction l with
  | nil => intro s h; cases h
  | cons v vs ih =>
    intro s h
    by_cases hv : v = s
    · subst hv
      simp [selectFirstMatch, flaggedValues, flaggedValues_mapFalse,
        flaggedValues_replicateFalse]
    · have hs : s ∈ vs := by
        rcases List.mem_cons.mp h with h1 | h1
        · exact absurd h1.symm hv
        · exact h1
      simp [selectFirstMatch, hv, flaggedValues, ih s hs]

theorem arraysEqual_self (l : List String) : arraysEqual l l = true := by
  simp [arraysEqual]

theorem hasValueChanged_self (a : SelVal) : hasValueChanged a a = false := by
  cases a with
  | single s => simp [hasValueChanged]
  | multi l => simp [hasValueChanged, arraysEqual_self]

theorem hasValueChanged_true_ne {a b : SelVal} (h : hasValueChanged a b = true) :
    a ≠ b := by
  intro he
  rw [he, hasValueChanged_self] at h
  exact Bool.false_ne_true h

theorem nativeSetVal_multiple (w : Widget) (v : SelVal) :
    (nativeSetVal w v).multiple = w.multiple := by
  cases v with
  | single s => cases s <;> rfl
  | multi l => rfl

theorem nativeSetVal_optionValues (w : Widget) (v : SelVal) :
    (nativeSetVal w v).optionValues = w.optionValues := by
  cases v with
  | single s => cases s <;> rfl
  | multi l => rfl

theorem nativeSetVal_itemActive (w : Widget) (v : SelVal) :
    (nativeSetVal w v).itemActive = w.itemActive := by
  cases v with
  | single s => cases s <;> rfl
  | multi l => rfl

theorem getSelected_nativeSetVal (w : Widget) (v : SelVal) :
    getSelectedValuesFromDropdown (nativeSetVal w v) = getSelectedValuesFromDropdown w := by
  rw [getSelected_eq_mkVal, getSelected_eq_mkVal, nativeSetVal_multiple]
  unfold activeValues
  rw [nativeSetVal_optionValues, nativeSetVal_itemActive]

theorem getSelected_setSelectValues (w : Widget) :
    getSelectedValuesFromDropdown (setSelectValues w) = getSelectedValuesFromDropdown w :=
  getSelected_nativeSetVal w _

/-- Core resynchronization lemma: writing a value of the form
mkVal w.multiple (flaggedValues w.optionValues f) to the native select
element makes $select.val() read back exactly that value, provided the
option values are pairwise distinct. -/
theorem selVal_nativeSetVal_mkVal (w : Widget) (f : List Bool)
    (hnd : w.optionValues.Nodup) :
    selVal (nativeSetVal w (mkVal w.multiple (flaggedValues w.optionValues f)))
      = mkVal w.multiple (flaggedValues w.optionValues f) := by
  by_cases hm : w.multiple
  · have hmk : mkVal w.multiple (flaggedValues w.optionValues f)
        = .multi (flaggedValues w.optionValues f) := by simp [mkVal, hm]
    rw [hmk]
    rw [selVal_eq_mkVal]
    rw [nativeSetVal_multiple]
    unfold selectedOptionValues
    rw [nativeSetVal_optionValues]
    show mkVal w.multiple
        (flaggedValues w.optionValues
          (selectMembers w.optionValues (flaggedValues w.optionValues f)))
      = SelVal.multi (flaggedValues w.optionValues f)
    rw [flaggedValues_selectMembers w.optionValues f hnd]
    simp [mkVal, hm]
  · have hmk : mkVal w.multiple (flaggedValues w.optionValues f)
        = .single (flaggedValues w.optionValues f).head? := by simp [mkVal, hm]
    rw [hmk]
    rw [selVal_eq_mkVal]
    rw [nativeSetVal_multiple]
    unfold selectedOptionValues
    rw [nativeSetVal_optionValues]
    cases hfv : flaggedValues w.optionValues f with
    | nil =>
      show mkVal w.multiple
          (flaggedValues w.optionValues (w.optionValues.map fun _ => false))
        = SelVal.single ([] : List String).head?
      rw [flaggedValues_mapFalse]
      simp [mkVal, hm]
    | cons s rest =>
      have hs : s ∈ w.optionValues :=
        mem_flaggedValues (hfv ▸ List.mem_cons_self s rest)
      show mkVal w.multiple
          (flaggedValues w.optionValues (selectFirstMatch w.optionValues s))
        = SelVal.single (s :: rest).head?
      rw [flaggedValues_selectFirstMatch w.optionValues s hs]
      simp [mkVal, hm]

/-- setSelectValues makes the native select value agree with the values
derived from the active dropdown items. -/
theorem selVal_setSelectValues (w : Widget) (hnd : w.optionValues.Nodup) :
    selVal (setSelectValues w) = getSelectedValuesFromDropdown w := by
  unfold setSelectValues
  rw [getSelected_eq_mkVal]
  exact selVal_nativeSetVal_mkVal w w.itemActive hnd

/-- Re-assigning the current value of the select to itself (as destroy
does) leaves the readable value unchanged. -/
theorem selVal_destroySelect (w : Widget) (hnd : w.optionValues.Nodup) :
    selVal (destroySelect w) = selVal w := by
  unfold destroySelect
  rw [selVal_eq_mkVal w]
  exact selVal_nativeSetVal_mkVal w w.optionSelected hnd

theorem renderLoop_filterMap (sv : SelVal) :
    ∀ (ves : List VElem) (i : Nat) (og : Int),
      (renderLoop sv ves i og).filterMap itemIndexValue
        = List.enumFrom i (optionsOfVElems ves) := by
  intro ves
  induction ves with
  | nil => intro i og; rfl
  | cons e rest ih =>
    intro i og
    cases e with
    | og label =>
      simp [renderLoop, itemIndexValue, optionsOfVElems, List.filterMap_cons, ih]
    | opt o =>
      simp [renderLoop, itemIndexValue, optionsOfVElems, List.filterMap_cons, ih,
        List.enumFrom]

/-! ## Claim theorems -/

/-- C7: for every event name E other than any.bs.select that the plugin
emits through its trigger function, a catch-all any.bs.select event is
emitted on the same select element before E, and any.bs.select itself
carries no parameters. -/
theorem trigger_any_precedes_each_event (e : String) (ps : List EvParam)
    (h : e ≠ "any.bs.select") :
    trigger e ps = [⟨"any.bs.select", []⟩, ⟨e, ps⟩] := by
  simp [trigger, triggerAny, h]

theorem trigger_any_precedes_each_event_witness :
    "change.bs.select" ≠ "any.bs.select" ∧
    trigger "change.bs.select" []
      = [⟨"any.bs.select", []⟩, ⟨"change.bs.select", []⟩] :=
  ⟨by decide, trigger_any_precedes_each_event "change.bs.select" [] (by decide)⟩

/-- C9: getDefaults deletes the debug and debugElement keys from the
shared DEFAULTS object itself (the returned object is that same shared
object, not a copy), so after a call to getDefaults the global defaults
lack the two keys, every other key survives, and any subsequent
initialization whose options object does not itself carry the keys gets
settings without them. -/
theorem getDefaults_mutates_shared_defaults (g : BsSelectGlobal) (o : UserOptions)
    (hdbg : o.debug = none) (hde : o.debugElement = none) :
    (getDefaults g).2.DEFAULTS = (getDefaults g).1 ∧
    (getDefaults g).2.DEFAULTS.debug = none ∧
    (getDefaults g).2.DEFAULTS.debugElement = none ∧
    (getDefaults g).2.DEFAULTS.btnClass = g.DEFAULTS.btnClass ∧
    (extendSettings (getDefaults g).2.DEFAULTS o).debug = none ∧
    (extendSettings (getDefaults g).2.DEFAULTS o).debugElement = none := by
  refine ⟨rfl, rfl, rfl, rfl, ?_, ?_⟩ <;>
    simp [extendSettings, getDefaults, hdbg, hde]

theorem getDefaults_mutates_shared_defaults_witness :
    (⟨some "x", none, none⟩ : UserOptions).debug = none ∧
    ((getDefaults ⟨⟨"btn-outline-dark", "Please select..", true, some true, some "log"⟩⟩).2.DEFAULTS
        = (getDefaults ⟨⟨"btn-outline-dark", "Please select..", true, some true, some "log"⟩⟩).1 ∧
      (getDefaults ⟨⟨"btn-outline-dark", "Please select..", true, some true, some "log"⟩⟩).2.DEFAULTS.debug = none ∧
      (getDefaults ⟨⟨"btn-outline-dark", "Please select..", true, some true, some "log"⟩⟩).2.DEFAULTS.debugElement = none ∧
      (getDefaults ⟨⟨"btn-outline-dark", "Please select..", true, some true, some "log"⟩⟩).2.DEFAULTS.btnClass
        = (⟨⟨"btn-outline-dark", "Please select..", true, some true, some "log"⟩⟩ : BsSelectGlobal).DEFAULTS.btnClass ∧
      (extendSettings (getDefaults ⟨⟨"btn-outline-dark", "Please select..", true, some true, some "log"⟩⟩).2.DEFAULTS
          ⟨some "x", none, none⟩).debug = none ∧
      (extendSettings (getDefaults ⟨⟨"btn-outline-dark", "Please select..", true, some true, some "log"⟩⟩).2.DEFAULTS
          ⟨some "x", none, none⟩).debugElement = none) :=
  ⟨rfl, getDefaults_mutates_shared_defaults
    ⟨⟨"btn-outline-dark", "Please select..", true, some true, some "log"⟩⟩
    ⟨some "x", none, none⟩ rfl rfl⟩

/-- C6: when the Bootstrap modal plugin or its Constructor is absent,
getBootstrapMajorVersion logs a console error and returns undefined
instead of throwing, and the setupDropdown handlers that consume the
result still complete normally (the undefined value simply compares
unequal to 4, so the guard evaluates to false). -/
theorem missing_modal_logs_and_returns_undefined (env : JQueryEnv)
    (h : env.modal = none ∨ ∃ m, env.modal = some m ∧ m.Constructor = none) :
    getBootstrapMajorVersion env = .ok (.undef, [modalMissingError]) ∧
    ∀ (multiple : Bool) (autoclose : String),
      setupDropdownBsGuard env multiple autoclose = .ok false := by
  have hg : getBootstrapMajorVersion env = .ok (.undef, [modalMissingError]) := by
    rcases h with h | ⟨m, hm, hc⟩
    · simp [getBootstrapMajorVersion, h]
    · simp [getBootstrapMajorVersion, hm, hc]
  refine ⟨hg, ?_⟩
  intro multiple autoclose
  simp [setupDropdownBsGuard, hg, bsMajorIsFour]

theorem missing_modal_logs_and_returns_undefined_witness :
    (⟨none⟩ : JQueryEnv).modal = none ∧
    (getBootstrapMajorVersion ⟨none⟩ = .ok (.undef, [modalMissingError]) ∧
      ∀ (multiple : Bool) (autoclose : String),
        setupDropdownBsGuard ⟨none⟩ multiple autoclose = .ok false) :=
  ⟨rfl, missing_modal_logs_and_returns_undefined ⟨none⟩ (Or.inl rfl)⟩

/-- C8: the dropdown items rendered by init carry data-index attributes
that enumerate the option elements of the select in document order from
zero, with optgroup headers consuming no index; hence option:eq(data-index)
recovers exactly the option an item was rendered from. -/
theorem dropdown_items_indexed_by_option_position (cs : List SelChild) (sv : SelVal) :
    (renderDropdownItems cs sv).filterMap itemIndexValue = (flattenOptions cs).enum := by
  rw [renderDropdownItems, renderLoop_filterMap]
  rfl

/-- C10: when a dropdown wrapper already exists for the select, init
returns that wrapper and leaves the whole state (select value, options,
rendered dropdown) untouched. -/
theorem init_returns_existing_wrapper (s : InitState) (d : List Rendered) (ft : Bool)
    (h : s.wrapper = some d) :
    initFn s ft = (d, s) := by
  simp [initFn, h]

theorem init_returns_existing_wrapper_witness :
    (⟨[.opt ⟨"1", "one"⟩], .single none, false,
        some [.item 0 (-1) ⟨"1", "one"⟩ false], none⟩ : InitState).wrapper
      = some [.item 0 (-1) ⟨"1", "one"⟩ false] ∧
    initFn ⟨[.opt ⟨"1", "one"⟩], .single none, false,
        some [.item 0 (-1) ⟨"1", "one"⟩ false], none⟩ true
      = ([.item 0 (-1) ⟨"1", "one"⟩ false],
         ⟨[.opt ⟨"1", "one"⟩], .single none, false,
          some [.item 0 (-1) ⟨"1", "one"⟩ false], none⟩) :=
  ⟨rfl, init_returns_existing_wrapper
    ⟨[.opt ⟨"1", "one"⟩], .single none, false,
      some [.item 0 (-1) ⟨"1", "one"⟩ false], none⟩
    [.item 0 (-1) ⟨"1", "one"⟩ false] true rfl⟩

/-- C3: after a search keyup/input event a dropdown item is visible
exactly when its trimmed text contains the trimmed search string as a
substring ignoring letter case, every item is visible when the trimmed
search string is empty, and closing the dropdown clears the search field
and makes every item visible again. -/
theorem search_filters_items_by_substring (texts : List String) (pat : String)
    (vis : List Bool) :
    (jsTrim pat = "" →
      searchKeyup ⟨texts, pat, vis⟩ = ⟨texts, pat, texts.map fun _ => true⟩) ∧
    (jsTrim pat ≠ "" →
      (searchKeyup ⟨texts, pat, vis⟩).visible
        = texts.map fun t =>
            strContains (jsToUpper (jsTrim t)) (jsToUpper (jsTrim pat))) ∧
    hiddenDropdownReset ⟨texts, pat, vis⟩ = ⟨texts, "", texts.map fun _ => true⟩ := by
  refine ⟨?_, ?_, ?_⟩
  · intro h
    simp [searchKeyup, searchVisibleFlags, h]
  · intro h
    simp [searchKeyup, searchVisibleFlags, h]
  · have hnil : jsTrim "" = "" := by decide
    simp [hiddenDropdownReset, searchKeyup, searchVisibleFlags, hnil]

theorem search_filters_items_by_substring_witness :
    jsTrim " ap " ≠ "" ∧
    (searchKeyup ⟨["Apple", "Banana"], " ap ", [true, true]⟩).visible
      = ["Apple", "Banana"].map fun t =>
          strContains (jsToUpper (jsTrim t)) (jsToUpper (jsTrim " ap ")) :=
  ⟨by decide,
    (search_filters_items_by_substring ["Apple", "Banana"] " ap " [true, true]).2.1
      (by decide)⟩

theorem changeEvents_trigger_change (ps : List EvParam) :
    changeEvents (trigger "change.bs.select" ps) = [⟨"change.bs.select", ps⟩] := by
  have hne : ("change.bs.select" : String) ≠ "any.bs.select" := by decide
  have h1 : (("any.bs.select" : String) == "change.bs.select") = false := by decide
  have h2 : (("change.bs.select" : String) == "change.bs.select") = true := by decide
  simp [changeEvents, trigger, triggerAny, hne, List.filter_cons, h1, h2]

/-- toggleSelectedItem in the default configuration (no onBeforeChange
callback): the result is the resynchronized state, plus a change event
exactly when the value changed. -/
theorem toggleSelectedItem_noCallback (w : Widget) (k : Nat) (sa : Bool)
    (hcb : w.onBeforeChangeResult = none) :
    toggleSelectedItem w k sa
      = (setSelectValues (setItemActive w k sa),
         if hasValueChanged (selVal w)
             (getSelectedValuesFromDropdown (setSelectValues (setItemActive w k sa)))
         then trigger "change.bs.select"
           [.val (selVal w),
            .val (getSelectedValuesFromDropdown (setSelectValues (setItemActive w k sa)))]
         else []) := by
  unfold toggleSelectedItem
  rw [show onBeforeChange w = (true, []) from by simp [onBeforeChange, hcb]]
  simp

/-- C1: clicking a dropdown item makes the native select value agree with
the active dropdown items, emits at most one change.bs.select event and
then with exactly the before and after values as parameters, and emits it
only when the before and after values differ (stated for the default
configuration without an onBeforeChange callback, on a select whose
option values are pairwise distinct). -/
theorem click_updates_value_and_fires_single_change
    (w : Widget) (k : Nat)
    (hcb : w.onBeforeChangeResult = none)
    (hnd : w.optionValues.Nodup) :
    selVal (clickDropdownItem w k).1
      = getSelectedValuesFromDropdown (clickDropdownItem w k).1 ∧
    changeEvents (clickDropdownItem w k).2
      = (if hasValueChanged (selVal w)
            (getSelectedValuesFromDropdown (clickDropdownItem w k).1)
         then [⟨"change.bs.select",
               [.val (selVal w),
                .val (getSelectedValuesFromDropdown (clickDropdownItem w k).1)]⟩]
         else []) ∧
    (hasValueChanged (selVal w)
        (getSelectedValuesFromDropdown (clickDropdownItem w k).1) = true →
      selVal w ≠ getSelectedValuesFromDropdown (clickDropdownItem w k).1) := by
  have hc : clickDropdownItem w k
      = toggleSelectedItem w k (!(w.itemActive.getD k false)) := rfl
  have hr := toggleSelectedItem_noCallback w k (!(w.itemActive.getD k false)) hcb
  have hfst : (clickDropdownItem w k).1
      = setSelectValues (setItemActive w k (!(w.itemActive.getD k false))) := by
    rw [hc, hr]
  have hsnd : (clickDropdownItem w k).2
      = (if hasValueChanged (selVal w)
            (getSelectedValuesFromDropdown
              (setSelectValues (setItemActive w k (!(w.itemActive.getD k false)))))
         then trigger "change.bs.select"
           [.val (selVal w),
            .val (getSelectedValuesFromDropdown
              (setSelectValues (setItemActive w k (!(w.itemActive.getD k false)))))]
         else []) := by
    rw [hc, hr]
  rw [hfst, hsnd]
  refine ⟨?_, ?_, ?_⟩
  · rw [getSelected_setSelectValues]
    exact selVal_setSelectValues _ hnd
  · split
    · exact changeEvents_trigger_change _
    · rfl
  · intro h
    exact hasValueChanged_true_ne h

theorem click_updates_value_and_fires_single_change_witness :
    clickW.onBeforeChangeResult = none ∧
    clickW.optionValues.Nodup ∧
    (selVal (clickDropdownItem clickW 0).1
        = getSelectedValuesFromDropdown (clickDropdownItem clickW 0).1 ∧
      changeEvents (clickDropdownItem clickW 0).2
        = (if hasValueChanged (selVal clickW)
              (getSelectedValuesFromDropdown (clickDropdownItem clickW 0).1)
           then [⟨"change.bs.select",
                 [.val (selVal clickW),
                  .val (getSelectedValuesFromDropdown (clickDropdownItem clickW 0).1)]⟩]
           else []) ∧
      (hasValueChanged (selVal clickW)
          (getSelectedValuesFromDropdown (clickDropdownItem clickW 0).1) = true →
        selVal clickW ≠ getSelectedValuesFromDropdown (clickDropdownItem clickW 0).1)) :=
  ⟨rfl, by decide,
    click_updates_value_and_fires_single_change clickW 0 rfl (by decide)⟩

/-- C2 (amended): on a multiple select, toggleAllItemsState sets every
option selected flag and every item active class to the requested state;
the selectAll.bs.select / selectNone.bs.select event is fired exactly
once and unconditionally, while change.bs.select is fired exactly when
the value actually changed. -/
theorem toggleAll_sets_all_and_fires_events
    (w : Widget) (state : Bool)
    (hm : w.multiple = true)
    (hlen : w.itemActive.length = w.optionValues.length) :
    ((toggleAllItemsState w state).1.optionSelected
        = w.optionValues.map fun _ => state) ∧
    ((toggleAllItemsState w state).1.itemActive
        = w.itemActive.map fun _ => state) ∧
    (((toggleAllItemsState w state).2.filter fun e =>
        e.name == toggleEventName state).length = 1) ∧
    (changeEvents (toggleAllItemsState w state).2
      = if hasValueChanged (selVal w)
            (getSelectedValuesFromDropdown (toggleAllItemsState w state).1)
        then [⟨"change.bs.select",
              [.val (selVal w),
               .val (getSelectedValuesFromDropdown (toggleAllItemsState w state).1)]⟩]
        else []) := by
  have hfst : (toggleAllItemsState w state).1
      = setSelectValues
          { w with
              optionSelected := w.optionSelected.map (fun _ => state),
              itemActive := w.itemActive.map (fun _ => state) } := rfl
  have hsnd : (toggleAllItemsState w state).2
      = trigger (toggleEventName state) []
        ++ (if hasValueChanged (selVal w)
              (getSelectedValuesFromDropdown (toggleAllItemsState w state).1)
            then trigger "change.bs.select"
              [.val (selVal w),
               .val (getSelectedValuesFromDropdown (toggleAllItemsState w state).1)]
            else []) := rfl
  have hw2m : ({ w with
      optionSelected := w.optionSelected.map (fun _ => state),
      itemActive := w.itemActive.map (fun _ => state) } : Widget).multiple
      = true := hm
  have hgs : getSelectedValuesFromDropdown
      { w with
        optionSelected := w.optionSelected.map (fun _ => state),
        itemActive := w.itemActive.map (fun _ => state) }
      = SelVal.multi
          (flaggedValues w.optionValues (w.itemActive.map fun _ => state)) := by
    rw [getSelected_eq_mkVal, hw2m]
    rfl
  have hflag : flaggedValues w.optionValues (w.itemActive.map fun _ => state)
      = (if state then w.optionValues else []) := by
    cases state with
    | true =>
      simp only [if_pos rfl]
      exact flaggedValues_allTrue _ _ (by simp)
        (by simp [hlen])
    | false =>
      simp only [if_neg Bool.false_ne_true]
      exact flaggedValues_mapFalse _ _
  refine ⟨?_, ?_, ?_, ?_⟩
  · rw [hfst]
    unfold setSelectValues
    rw [hgs, hflag]
    cases state with
    | true =>
      simp only [if_pos rfl]
      show selectMembers w.optionValues w.optionValues = w.optionValues.map fun _ => true
      exact selectMembers_allMem _ _ (fun v hv => (containsStr_iff _ _).mpr hv)
    | false =>
      simp only [if_neg Bool.false_ne_true]
      show selectMembers w.optionValues [] = w.optionValues.map fun _ => false
      exact selectMembers_nilSel _
  · rw [hfst]
    unfold setSelectValues
    rw [nativeSetVal_itemActive]
  · rw [hsnd]
    rw [List.filter_append, List.length_append]
    cases state with
    | true =>
      have hone : (List.filter (fun e => e.name == toggleEventName true)
          (trigger (toggleEventName true) [])).length = 1 := by decide
      have hzero : ∀ ps, (List.filter (fun e => e.name == toggleEventName true)
          (trigger "change.bs.select" ps)).length = 0 := by
        intro ps
        have h1 : (("any.bs.select" : String) == toggleEventName true) = false := by decide
        have h2 : (("change.bs.select" : String) == toggleEventName true) = false := by decide
        have hne : ("change.bs.select" : String) ≠ "any.bs.select" := by decide
        simp [trigger, triggerAny, hne, List.filter_cons, h1, h2]
      split
      · rw [hone, hzero]
      · rw [hone]
        rfl
    | false =>
      have hone : (List.filter (fun e => e.name == toggleEventName false)
          (trigger (toggleEventName false) [])).length = 1 := by decide
      have hzero : ∀ ps, (List.filter (fun e => e.name == toggleEventName false)
          (trigger "change.bs.select" ps)).length = 0 := by
        intro ps
        have h1 : (("any.bs.select" : String) == toggleEventName false) = false := by decide
        have h2 : (("change.bs.select" : String) == toggleEventName false) = false := by decide
        have hne : ("change.bs.select" : String) ≠ "any.bs.select" := by decide
        simp [trigger, triggerAny, hne, List.filter_cons, h1, h2]
      split
      · rw [hone, hzero]
      · rw [hone]
        rfl
  · rw [hsnd]
    unfold changeEvents
    rw [List.filter_append]
    have hnil : (List.filter (fun e => e.name == "change.bs.select")
        (trigger (toggleEventName state) [])) = [] := by
      cases state with
      | true => decide
      | false => decide
    rw [hnil, List.nil_append]
    split
    · exact changeEvents_trigger_change _
    · rfl

/-- C2 counterexample: running the selectAll command on a multiple select
whose value cannot change still fires selectAll.bs.select (refuting that
the event is fired only when the value changed), and running it on a
select-one leaves the second option unselected (refuting that every
option selected property becomes true on every select). -/
theorem selectAll_event_without_value_change :
    selVal (selectAllCommand allSelectedW).1 = selVal allSelectedW ∧
    ((selectAllCommand allSelectedW).2.filter fun e =>
        e.name == "selectAll.bs.select").length = 1 ∧
    changeEvents (selectAllCommand allSelectedW).2 = [] ∧
    (selectAllCommand singleSelW).1.optionSelected ≠ [true, true] := by
  decide

theorem toggleAll_sets_all_and_fires_events_witness :
    multiW.multiple = true ∧
    multiW.itemActive.length = multiW.optionValues.length ∧
    (((toggleAllItemsState multiW true).1.optionSelected
        = multiW.optionValues.map fun _ => true) ∧
      ((toggleAllItemsState multiW true).1.itemActive
        = multiW.itemActive.map fun _ => true) ∧
      (((toggleAllItemsState multiW true).2.filter fun e =>
          e.name == toggleEventName true).length = 1) ∧
      (changeEvents (toggleAllItemsState multiW true).2
        = if hasValueChanged (selVal multiW)
              (getSelectedValuesFromDropdown (toggleAllItemsState multiW true).1)
          then [⟨"change.bs.select",
                [.val (selVal multiW),
                 .val (getSelectedValuesFromDropdown (toggleAllItemsState multiW true).1)]⟩]
          else [])) :=
  ⟨rfl, rfl, toggleAll_sets_all_and_fires_events multiW true rfl rfl⟩

theorem insertSelBeforeWrap_append (l1 l2 : List PNode)
    (h1 : ∀ b, PNode.wrap b ∉ l1) :
    insertSelBeforeWrap (l1 ++ l2) = l1 ++ insertSelBeforeWrap l2 := by
  induction l1 with
  | nil => rfl
  | cons n rest ih =>
    have hr : ∀ b, PNode.wrap b ∉ rest :=
      fun b hb => h1 b (List.mem_cons_of_mem n hb)
    cases n with
    | sel => simp [insertSelBeforeWrap, ih hr]
    | wrap b => exact absurd (List.mem_cons_self _ rest) (h1 b)
    | other k => simp [insertSelBeforeWrap, ih hr]

theorem insertSelBeforeWrap_of_noWrap (l : List PNode)
    (h : ∀ b, PNode.wrap b ∉ l) :
    insertSelBeforeWrap l = l := by
  have := insertSelBeforeWrap_append l [] h
  simpa [insertSelBeforeWrap] using this

theorem removeWrap_append (l1 l2 : List PNode)
    (h1 : ∀ b, PNode.wrap b ∉ l1) :
    removeWrap (l1 ++ l2) = l1 ++ removeWrap l2 := by
  induction l1 with
  | nil => rfl
  | cons n rest ih =>
    have hr : ∀ b, PNode.wrap b ∉ rest :=
      fun b hb => h1 b (List.mem_cons_of_mem n hb)
    cases n with
    | sel => simp [removeWrap, ih hr]
    | wrap b => exact absurd (List.mem_cons_self _ rest) (h1 b)
    | other k => simp [removeWrap, ih hr]

theorem removeWrap_of_noWrap (l : List PNode)
    (h : ∀ b, PNode.wrap b ∉ l) :
    removeWrap l = l := by
  have := removeWrap_append l [] h
  simpa [removeWrap] using this

/-- C4: the destroy command moves the original select element back into
the sibling position the dropdown wrapper occupied, removes the wrapper,
and leaves the readable value of the select equal to the value it had
immediately before destroy was invoked (on a select whose option values
are pairwise distinct). -/
theorem destroy_restores_select_in_place
    (w : Widget) (l1 l2 : List PNode)
    (hnd : w.optionValues.Nodup)
    (h1 : ∀ b, PNode.wrap b ∉ l1)
    (h2 : ∀ b, PNode.wrap b ∉ l2) :
    destroyDom (l1 ++ PNode.wrap true :: l2) = l1 ++ PNode.sel :: l2 ∧
    selVal (destroySelect w) = selVal w := by
  constructor
  · unfold destroyDom
    rw [insertSelBeforeWrap_append l1 _ h1]
    have hstep : insertSelBeforeWrap (PNode.wrap true :: l2)
        = PNode.sel :: PNode.wrap false :: insertSelBeforeWrap l2 := rfl
    rw [hstep, insertSelBeforeWrap_of_noWrap l2 h2]
    rw [removeWrap_append l1 _ h1]
    have hstep2 : removeWrap (PNode.sel :: PNode.wrap false :: l2)
        = PNode.sel :: removeWrap l2 := rfl
    rw [hstep2, removeWrap_of_noWrap l2 h2]
  · exact selVal_destroySelect w hnd

theorem destroy_restores_select_in_place_witness :
    destroyW.optionValues.Nodup ∧
    (∀ b, PNode.wrap b ∉ [PNode.other 0]) ∧
    (∀ b, PNode.wrap b ∉ [PNode.other 1]) ∧
    (destroyDom ([PNode.other 0] ++ PNode.wrap true :: [PNode.other 1])
        = [PNode.other 0] ++ PNode.sel :: [PNode.other 1] ∧
      selVal (destroySelect destroyW) = selVal destroyW) :=
  ⟨by decide, by decide, by decide,
    destroy_restores_select_in_place destroyW [PNode.other 0] [PNode.other 1]
      (by decide) (by decide) (by decide)⟩

theorem nativeSetVal_update_disabled (w : Widget) (d : Bool) (v : SelVal) :
    nativeSetVal { w with disabled := d } v
      = { nativeSetVal w v with disabled := d } := by
  cases v with
  | single s => cases s <;> rfl
  | multi l => rfl

theorem setSelectValues_update_disabled (w : Widget) (d : Bool) :
    setSelectValues { w with disabled := d }
      = { setSelectValues w with disabled := d } := by
  unfold setSelectValues
  have hg : getSelectedValuesFromDropdown { w with disabled := d }
      = getSelectedValuesFromDropdown w := rfl
  rw [hg]
  exact nativeSetVal_update_disabled w d _

theorem valFn_update_disabled (w : Widget) (d : Bool) :
    valFn { w with disabled := d } = { valFn w with disabled := d } := by
  unfold valFn
  have hs : selVal { w with disabled := d } = selVal w := rfl
  rw [hs]
  cases hv : selVal w with
  | single s =>
    cases s with
    | none =>
      exact setSelectValues_update_disabled
        { w with
            itemActive := activateIndices (w.itemActive.map fun _ => false)
              (([] : List String).filterMap fun v => indexOfStr w.optionValues v) } d
    | some a =>
      exact setSelectValues_update_disabled
        { w with
            itemActive := activateIndices (w.itemActive.map fun _ => false)
              ([a].filterMap fun v => indexOfStr w.optionValues v) } d
  | multi l =>
    exact setSelectValues_update_disabled
      { w with
          itemActive := activateIndices (w.itemActive.map fun _ => false)
            (l.filterMap fun v => indexOfStr w.optionValues v) } d

/-- The val command in the default configuration (no onBeforeChange
callback): assign the parameter, rebuild the dropdown state, and emit a
change event exactly when the value changed. -/
theorem valCommand_noCallback (w : Widget) (v : SelVal)
    (hcb : w.onBeforeChangeResult = none) :
    valCommand w v
      = (valFn (nativeSetVal w v),
         if hasValueChanged (selVal w)
             (getSelectedValuesFromDropdown (valFn (nativeSetVal w v)))
         then trigger "change.bs.select"
           [.val (selVal w),
            .val (getSelectedValuesFromDropdown (valFn (nativeSetVal w v)))]
         else []) := by
  unfold valCommand
  rw [show onBeforeChange w = (true, []) from by simp [onBeforeChange, hcb]]
  simp

/-- The val command reads and writes no state through the disabled flag:
its result on a widget differs from the result on the same widget with
the other disabled flag only in that flag itself. -/
theorem valCommand_update_disabled (w : Widget) (d : Bool) (v : SelVal)
    (hcb : w.onBeforeChangeResult = none) :
    valCommand { w with disabled := d } v
      = ({ (valCommand w v).1 with disabled := d }, (valCommand w v).2) := by
  have h1 := valCommand_noCallback { w with disabled := d } v hcb
  have h2 := valCommand_noCallback w v hcb
  rw [h1, h2]
  rw [nativeSetVal_update_disabled w d v, valFn_update_disabled (nativeSetVal w v) d]
  have hg : getSelectedValuesFromDropdown { valFn (nativeSetVal w v) with disabled := d }
      = getSelectedValuesFromDropdown (valFn (nativeSetVal w v)) := rfl
  have hs : selVal { w with disabled := d } = selVal w := rfl
  rw [hg, hs]

/-- C5 (amended): bsSelect setDisabled with status true disables the
toggle button and the native select element and closes the dropdown,
which blocks value changes made through user interaction with the
widget; but the plugin commands are not guarded by the disabled state, so
a programmatic val command produces exactly the same new selection,
dropdown state, and events on a disabled widget as on an enabled one. -/
theorem setDisabled_blocks_ui_not_commands (w : Widget) (v : SelVal)
    (hcb : w.onBeforeChangeResult = none) :
    (setDisabledOp w true).1.disabled = true ∧
    (setDisabledOp w true).1.btnDisabled = true ∧
    (setDisabledOp w true).1.isOpen = false ∧
    selVal (valCommand { w with disabled := true } v).1
      = selVal (valCommand { w with disabled := false } v).1 ∧
    (valCommand { w with disabled := true } v).1.optionSelected
      = (valCommand { w with disabled := false } v).1.optionSelected ∧
    (valCommand { w with disabled := true } v).2
      = (valCommand { w with disabled := false } v).2 := by
  refine ⟨rfl, rfl, rfl, ?_, ?_, ?_⟩
  · rw [valCommand_update_disabled w true v hcb, valCommand_update_disabled w false v hcb]
    rfl
  · rw [valCommand_update_disabled w true v hcb, valCommand_update_disabled w false v hcb]
  · rw [valCommand_update_disabled w true v hcb, valCommand_update_disabled w false v hcb]

theorem setDisabled_blocks_ui_not_commands_witness :
    disabledW.onBeforeChangeResult = none ∧
    ((setDisabledOp disabledW true).1.disabled = true ∧
      (setDisabledOp disabledW true).1.btnDisabled = true ∧
      (setDisabledOp disabledW true).1.isOpen = false ∧
      selVal (valCommand { disabledW with disabled := true } (.single (some "b"))).1
        = selVal (valCommand { disabledW with disabled := false } (.single (some "b"))).1 ∧
      (valCommand { disabledW with disabled := true } (.single (some "b"))).1.optionSelected
        = (valCommand { disabledW with disabled := false } (.single (some "b"))).1.optionSelected ∧
      (valCommand { disabledW with disabled := true } (.single (some "b"))).2
        = (valCommand { disabledW with disabled := false } (.single (some "b"))).2) :=
  ⟨rfl, setDisabled_blocks_ui_not_commands disabledW (.single (some "b")) rfl⟩

/-- C5 counterexample: after setDisabled true the select is disabled,
yet the val command still changes the select value from a to b,
refuting that disabling prevents every plugin operation from changing
the value. -/
theorem val_command_changes_value_while_disabled :
    (setDisabledOp disabledW true).1.disabled = true ∧
    selVal (setDisabledOp disabledW true).1 = .single (some "a") ∧
    selVal (valCommand (setDisabledOp disabledW true).1 (.single (some "b"))).1
      = .single (some "b") := by
  decide

end BsSelect
